import Mathlib

/-!
Verification of the attendance tracker's aggregation and alerting engine.

Modelling conventions (shallow embedding of the TypeScript sources):

* Timestamps are epoch milliseconds as `Int` (JS `number` holding integer
  millis).  The embedding fixes the local timezone to UTC, so the calendar
  day of a timestamp is `timestamp / 86400000` and the minutes-of-day is
  `(timestamp / 60000) % 1440` (Euclidean division, matching JS `Date`
  arithmetic on the UTC clock).
* Calendar dates (ISO `YYYY-MM-DD` strings, `new Date(y, m, d)` values and
  the `ar-EG` display date strings) are all in bijection with the calendar
  day index; the embedding represents each of them by the day index
  (`Int`), with `dispDate` as the injective rendering used for the
  display-locale strings that end up inside notifications.
* Weekday names produced by `toLocaleDateString('ar-EG', weekday)` are
  modelled by `weekdayName`, indexing a fixed 7-name table by `day % 7`
  (epoch alignment is immaterial: only equality with the strings stored in
  `WorkSchedule.days` is ever used).
* JS `Array.prototype.sort` with a numeric comparator is modelled by the
  stable `List.insertionSort`.
* Persistence reads follow the live (Firebase) paths, the only ones
  reachable since `isFirebaseEnabled()` is hardcoded `true`:
  `getRecords` applies the written `orderBy('timestamp', 'desc'),
  limit(n)` (sort descending by timestamp, truncate); `getNotifications`
  applies the written `limit(50)` with no `orderBy`, which returns the
  first 50 documents in the backend's default document-name order —
  ascending by document id, here the notification's `id` string, modelled
  by codepoint-lexicographic order (`lexLe`; ids are ASCII digit strings,
  where codepoint and byte order coincide) — before the display sort.
-/

/-- Model of `src/types.ts` `AttendanceType`. -/
inductive AttendanceType
  | CHECK_IN
  | CHECK_OUT
deriving DecidableEq, Repr

/-- Model of `src/types.ts` `verificationMethod : 'GPS' | 'QR'`. -/
inductive VMethod
  | GPS
  | QR
deriving DecidableEq, Repr

/-- Model of `src/types.ts` `Coordinates` (lat/long; exact rationals stand in for JS numbers). -/
structure Coordinates where
  latitude : ℚ
  longitude : ℚ
deriving DecidableEq, Repr

/-- Model of `src/types.ts` `AttendanceRecord`. -/
structure AttendanceRecord where
  id : String
  workerName : String
  timestamp : Int
  type : AttendanceType
  location : Coordinates
  photoUrl : String
  locationVerified : Bool
  verificationMethod : VMethod
deriving DecidableEq, Repr

/-- Model of `src/types.ts` `Employee.status : 'Active' | 'Inactive'`. -/
inductive EmpStatus
  | Active
  | Inactive
deriving DecidableEq, Repr

/-- Model of `src/types.ts` `Employee` (password omitted: never read by the engine). -/
structure Employee where
  id : String
  name : String
  role : String
  phone : String
  status : EmpStatus
deriving DecidableEq, Repr

/-- Model of `src/types.ts` `ShiftPeriod` (field `end` renamed `endTime`: `end` is a Lean keyword). -/
structure ShiftPeriod where
  start : String
  endTime : String
  name : String
deriving DecidableEq, Repr

/-- Model of `src/types.ts` `WorkSchedule`. -/
structure WorkSchedule where
  id : String
  shiftName : String
  shifts : List ShiftPeriod
  days : List String
deriving DecidableEq, Repr

/-- Model of `src/types.ts` `CalendarEvent.type`. -/
inductive CalEventType
  | HOLIDAY
  | EXTRA_WORKDAY
deriving DecidableEq, Repr

/-- Model of `src/types.ts` `CalendarEvent`; `date` is the `YYYY-MM-DD` string, modelled
by the day index it denotes. -/
structure CalendarEvent where
  id : String
  name : String
  date : Int
  type : CalEventType
deriving DecidableEq, Repr

/-- Model of `src/types.ts` `LeaveRequest.status`. -/
inductive LeaveStatus
  | Pending
  | Approved
  | Rejected
deriving DecidableEq, Repr

/-- Model of `src/types.ts` `LeaveRequest`; `startDate`/`endDate` are `YYYY-MM-DD`
strings (HTML date inputs), modelled by the day indices they denote
(`new Date("YYYY-MM-DD")` is UTC midnight of that day). -/
structure LeaveRequest where
  id : String
  employeeId : String
  employeeName : String
  startDate : Int
  endDate : Int
  reason : String
  status : LeaveStatus
deriving DecidableEq, Repr

/-- Model of `src/types.ts` `Notification`. -/
structure Notification where
  id : String
  title : String
  message : String
  date : String
  read : Bool
deriving DecidableEq, Repr

/-- The persisted collections the engine reads (spec section 6 behavioural
contract of the storage collaborator). -/
structure Store where
  records : List AttendanceRecord
  employees : List Employee
  schedules : List WorkSchedule
  calendarEvents : List CalendarEvent
  leaves : List LeaveRequest
  notifications : List Notification
deriving Repr

/-- The ambient wall clock read (repeatedly, within one run) by
`checkAndGenerateAbsenceAlerts` via `new Date()`: the current local calendar
day, the minutes elapsed since local midnight, and the raw material for the
`Date.now().toString() + random` notification id. -/
structure Clock where
  today : Int
  currentMinutes : Int
  freshId : String
deriving Repr

/-- Milliseconds per day. -/
def msDay : Int := 86400000

/-- The current instant (`new Date()` / `Date.now()`) in epoch millis. -/
def Clock.now (c : Clock) : Int := c.today * msDay + c.currentMinutes * 60000

/-- Local midnight of today (`new Date(today.setHours(0,0,0,0)).getTime()`). -/
def Clock.startOfDay (c : Clock) : Int := c.today * msDay

/-- Calendar day index of a record's timestamp (`toDateString` grouping under
the UTC-timezone convention). -/
def recDay (r : AttendanceRecord) : Int := r.timestamp / msDay

/-- Weekday names as produced by `toLocaleDateString('ar-EG', { weekday: 'long' })`. -/
def weekdayNames : List String :=
  ["الأحد", "الاثنين", "الثلاثاء", "الأربعاء", "الخميس", "الجمعة", "السبت"]

/-- The weekday name of a calendar day (day 0 is a Sunday; only equality with
strings stored in `WorkSchedule.days` is ever used). -/
def weekdayName (d : Int) : String := weekdayNames.getD (d % 7).toNat ""

/-- Injective model of `toLocaleDateString('ar-EG')`, the display-locale date
string stored in `Notification.date` and embedded in messages. -/
def dispDate (d : Int) : String := "تاريخ-" ++ toString d

/-- Decimal digit parsing (`Number("08") = 8` on the digit strings this
system stores). -/
def digitsToNat (cs : List Char) : Nat :=
  cs.foldl (fun acc c => acc * 10 + (c.toNat - 48)) 0

/-- Split a char list at the first `':'` (`t.split(':')` on `"HH:MM"`). -/
def splitColon : List Char → Option (List Char × List Char)
  | [] => none
  | c :: t =>
      if c = ':' then some ([], t)
      else
        match splitColon t with
        | some (a, b) => some (c :: a, b)
        | none => none

/-- Model of `timeToMin` (UserDashboardView) / the shift-start parsing in
`checkAndGenerateAbsenceAlerts`:
`const [h, m] = t.split(':').map(Number); h * 60 + m` (colon-free input is a
don't-care: every stored shift time is `"HH:MM"`). -/
def timeToMin (t : String) : Int :=
  match splitColon t.data with
  | some (h, m) => (digitsToNat h : Int) * 60 + (digitsToNat m : Int)
  | none => 0

/-- Leading-segment test on char lists (used to model
`String.prototype.includes`). -/
def leadsWith : List Char → List Char → Bool
  | [], _ => true
  | _ :: _, [] => false
  | a :: as, b :: bs => a == b && leadsWith as bs

/-- Substring occurrence on char lists. -/
def subOf (needle : List Char) : List Char → Bool
  | [] => needle.isEmpty
  | c :: t => leadsWith needle (c :: t) || subOf needle t

/-- JS `hay.includes(needle)`. -/
def strIncludes (hay needle : String) : Bool := subOf needle.data hay.data

/-- JS stable numeric-comparator sort, ascending by timestamp
(`.sort((a,b) => a.timestamp - b.timestamp)`). -/
def sortAsc (l : List AttendanceRecord) : List AttendanceRecord :=
  List.insertionSort (fun a b => a.timestamp ≤ b.timestamp) l

/-- JS stable numeric-comparator sort, descending by timestamp
(`.sort((a,b) => b.timestamp - a.timestamp)`). -/
def sortDesc (l : List AttendanceRecord) : List AttendanceRecord :=
  List.insertionSort (fun a b => b.timestamp ≤ a.timestamp) l

/-- Model of `parseInt` on the numeric-string notification ids. -/
def idNum (s : String) : Nat := digitsToNat s.data

/-- Notification display sort (`.sort((a,b) => parseInt(b.id) - parseInt(a.id))`). -/
def sortByIdDesc (l : List Notification) : List Notification :=
  List.insertionSort (fun a b => idNum b.id ≤ idNum a.id) l

/-! ## Attendance reconstructor (per-day sessions)

`UserDashboardView.tsx` lines 93-105 and `DashboardView.tsx`
`generateReportData` lines 316-329 share this logic: within a day's
records sorted ascending, the day's check-in is the first `CHECK_IN`, the
day's check-out is the last `CHECK_OUT`, and the day contributes
`checkOut.timestamp - checkIn.timestamp` only when both exist and the
check-out is strictly later. -/

/-- A worker's records on one calendar day, sorted ascending by timestamp. -/
def dayRecordsOf (records : List AttendanceRecord) (w : String) (d : Int) :
    List AttendanceRecord :=
  sortAsc (records.filter (fun r => r.workerName == w && recDay r == d))

/-- Model of `dayRecords.find(r => r.type === AttendanceType.CHECK_IN)`. -/
def firstCheckIn (dayRecs : List AttendanceRecord) : Option AttendanceRecord :=
  dayRecs.find? (fun r => r.type == AttendanceType.CHECK_IN)

/-- Model of `dayRecords.slice().reverse().find(r => r.type === AttendanceType.CHECK_OUT)`. -/
def lastCheckOut (dayRecs : List AttendanceRecord) : Option AttendanceRecord :=
  dayRecs.reverse.find? (fun r => r.type == AttendanceType.CHECK_OUT)

/-- The day's worked duration in milliseconds:
`if (checkIn && checkOut && checkOut.timestamp > checkIn.timestamp) dayMs = checkOut.timestamp - checkIn.timestamp` else `0`. -/
def dayMsOf (dayRecs : List AttendanceRecord) : Int :=
  match firstCheckIn dayRecs, lastCheckOut dayRecs with
  | some ci, some co =>
      if ci.timestamp < co.timestamp then co.timestamp - ci.timestamp else 0
  | _, _ => 0

/-! ## Daily classifier (`UserDashboardView.tsx` lines 108-165)

The Arabic status strings of the source are modelled by an enum:
`'حضور'` = PRESENT, `'حضور (متأخر)'` = LATE, `'إجازة'` = ON_LEAVE,
`'عطلة رسمية'` = HOLIDAY, `'عطلة أسبوعية'` = NON_WORKDAY, `'غياب'` = ABSENT. -/

inductive DayStatus
  | PRESENT
  | LATE
  | ON_LEAVE
  | HOLIDAY
  | NON_WORKDAY
  | ABSENT
deriving DecidableEq, Repr

/-- Minutes-of-day of a check-in
(`new Date(ts).getHours() * 60 + new Date(ts).getMinutes()`, UTC model). -/
def minutesOfDay (ts : Int) : Int := (ts / 60000) % 1440

/-- The closest-start loop of `UserDashboardView.tsx` lines 137-142: minimum
absolute difference to `checkInMinutes`, first-encountered element winning
ties (`diff < minDiff` keeps the earlier candidate). -/
def closestStart (checkInMinutes : Int) : List Int → Option Int
  | [] => none
  | t :: ts =>
      some (ts.foldl
        (fun best cand =>
          if (checkInMinutes - cand).natAbs < (checkInMinutes - best).natAbs
          then cand else best)
        t)

/-- Model of `calendarEvents.find(e => e.date === dateISO && e.type === 'HOLIDAY')`. -/
def holidayOn (events : List CalendarEvent) (d : Int) : Bool :=
  events.any (fun e => e.date == d && e.type == CalEventType.HOLIDAY)

/-- Model of `schedules.length === 0 || schedules.some(s => s.days.includes(dayName))`. -/
def isScheduledDay (schedules : List WorkSchedule) (d : Int) : Bool :=
  schedules.isEmpty || schedules.any (fun s => s.days.contains (weekdayName d))

/-- Model of `allLeaves.find(l => l.employeeName === workerName && l.status === 'Approved'
&& new Date(l.startDate) <= date && new Date(l.endDate) >= date)` where `date`
is midnight of day `d`: the classifier's approved-leave cover test. -/
def leaveCovers (leaves : List LeaveRequest) (w : String) (d : Int) : Bool :=
  leaves.any (fun l =>
    l.employeeName == w && l.status == LeaveStatus.Approved &&
    decide (l.startDate * msDay ≤ d * msDay) && decide (l.endDate * msDay ≥ d * msDay))

/-- The lateness refinement of `UserDashboardView.tsx` lines 131-148, reached
once `dayRecords.length > 0` made the status PRESENT: only when a check-in
exists, the day is scheduled and not a holiday, the FIRST schedule listing the
weekday is consulted, and the day turns LATE when the check-in is more than 15
minutes after the closest of that schedule's shift starts (an empty shift list
leaves the JS comparison false, hence on-time). -/
def lateRefine (schedules : List WorkSchedule) (d : Int)
    (checkIn : Option AttendanceRecord) (isScheduled holiday : Bool) : DayStatus :=
  match checkIn with
  | none => DayStatus.PRESENT
  | some ci =>
      if isScheduled && !holiday then
        match schedules.find? (fun s => s.days.contains (weekdayName d)) with
        | none => DayStatus.PRESENT
        | some sch =>
            let checkInMinutes := minutesOfDay ci.timestamp
            let startTimes := sch.shifts.map (fun sh => timeToMin sh.start)
            match closestStart checkInMinutes startTimes with
            | none => DayStatus.PRESENT
            | some cs =>
                if checkInMinutes > cs + 15 then DayStatus.LATE else DayStatus.PRESENT
      else DayStatus.PRESENT

/-- One day's status for one worker: the decision chain of
`UserDashboardView.tsx` lines 126-165. -/
def classifyDay (schedules : List WorkSchedule) (events : List CalendarEvent)
    (leaves : List LeaveRequest) (records : List AttendanceRecord)
    (w : String) (d : Int) : DayStatus :=
  let dayRecords := dayRecordsOf records w d
  let holiday := holidayOn events d
  let isScheduled := isScheduledDay schedules d
  let leave := leaveCovers leaves w d
  if !dayRecords.isEmpty then
    lateRefine schedules d (firstCheckIn dayRecords) isScheduled holiday
  else if leave then DayStatus.ON_LEAVE
  else if holiday then DayStatus.HOLIDAY
  else if !isScheduled then DayStatus.NON_WORKDAY
  else DayStatus.ABSENT

/-! ## Storage reads used by the alerting engine (`storageService.ts`) -/

/-- Model of `getRecords(limitCount)`: the live (Firebase) path queries
`orderBy('timestamp', 'desc'), limit(limitCount)`, i.e. the `limitCount` most
recent records, newest first. -/
def getRecords (st : Store) (limitCount : Nat) : List AttendanceRecord :=
  (sortDesc st.records).take limitCount

/-- Codepoint-lexicographic order on char lists: the default document-name
(`__name__`) ordering a Firestore query without `orderBy` uses (document
names here are the notification `id` strings — ASCII digits, where codepoint
and byte order coincide). -/
def lexLe : List Char → List Char → Bool
  | [], _ => true
  | _ :: _, [] => false
  | a :: as, b :: bs =>
      if a.toNat < b.toNat then true
      else if b.toNat < a.toNat then false
      else lexLe as bs

/-- Model of `getNotifications()`: the live path reads
`query(collection, limit(50))` — the first 50 documents in default
document-name order, i.e. ascending by notification id — and then sorts the
result by numeric id descending for display. -/
def getNotifications (st : Store) : List Notification :=
  sortByIdDesc
    ((List.insertionSort (fun a b => lexLe a.id.data b.id.data = true)
      st.notifications).take 50)

/-! ## Absence alerting engine (`storageService.checkAndGenerateAbsenceAlerts`) -/

/-- The absence-alert notification title `'تنبيه غياب'`. -/
def absenceTitle : String := "تنبيه غياب"

/-- The absence-alert message:
`` `الموظف ${emp.name} لم يسجل الحضور اليوم (${isExtraWorkDay ? 'دوام إضافي' : dayName}) حتى الآن.` ``. -/
def absenceMessage (isExtraWorkDay : Bool) (dayName name : String) : String :=
  "الموظف " ++ (name ++ (" لم يسجل الحضور اليوم (" ++
    ((if isExtraWorkDay then "دوام إضافي" else dayName) ++ ") حتى الآن.")))

/-- The notification saved for an absent employee (the
`Date.now().toString() + random` id is modelled by the clock's fresh-id
material suffixed with the employee name to keep ids distinct; no guard ever
reads the id). -/
def mkAbsNote (c : Clock) (isExtraWorkDay : Bool) (e : Employee) : Notification :=
  { id := c.freshId ++ e.name
    title := absenceTitle
    message := absenceMessage isExtraWorkDay (weekdayName c.today) e.name
    date := dispDate c.today
    read := false }

/-- The engine's presence set for today:
`records.filter(r => r.timestamp >= startOfDay && r.type === 'CHECK_IN').map(r => r.workerName)`
over the 500 most recent records. -/
def presentEmployeeNames (c : Clock) (st : Store) : List String :=
  ((getRecords st 500).filter
    (fun r => decide (r.timestamp ≥ c.startOfDay) && r.type == AttendanceType.CHECK_IN)).map
    (fun r => r.workerName)

/-- The engine's `isOnLeave` test: an Approved leave whose
`new Date(startDate)`/`new Date(endDate)` midnights bracket the CURRENT
INSTANT `new Date()` (not the calendar day). -/
def isOnLeaveNow (c : Clock) (leaves : List LeaveRequest) (name : String) : Bool :=
  leaves.any (fun l =>
    l.employeeName == name && l.status == LeaveStatus.Approved &&
    decide (l.startDate * msDay ≤ c.now) && decide (l.endDate * msDay ≥ c.now))

/-- The per-notification match of the engine's `alreadyNotified` guard:
titled `'تنبيه غياب'`, message CONTAINS the employee's name as a substring,
dated today's display string. -/
def absNoteMatch (c : Clock) (name : String) (n : Notification) : Bool :=
  n.title == absenceTitle && strIncludes n.message name && n.date == dispDate c.today

/-- The engine's `alreadyNotified` idempotency guard:
`notifications.some(n => n.title === 'تنبيه غياب' && n.message.includes(emp.name) && n.date === dateStrDisplay)`. -/
def alreadyNotified (c : Clock) (notifications : List Notification) (name : String) : Bool :=
  notifications.any (absNoteMatch c name)

/-- Model of `checkAndGenerateAbsenceAlerts` (`storageService.ts` lines 467-549),
returning the list of notifications it saves; the function's numeric result is
the length of that list (`alertsGenerated` is incremented once per save). -/
def checkAndGenerateAbsenceAlerts (c : Clock) (st : Store) : List Notification :=
  let todayEvent := st.calendarEvents.find? (fun e => e.date == c.today)
  if todayEvent.any (fun e => e.type == CalEventType.HOLIDAY) then []
  else
    let todaySchedules := st.schedules.filter (fun s => s.days.contains (weekdayName c.today))
    let isRegularWorkDay := st.schedules.isEmpty || !todaySchedules.isEmpty
    let isExtraWorkDay := todayEvent.any (fun e => e.type == CalEventType.EXTRA_WORKDAY)
    if !isRegularWorkDay && !isExtraWorkDay then []
    else
      let employees := st.employees.filter (fun e => e.status == EmpStatus.Active)
      let leaves := st.leaves
      let notifications := getNotifications st
      let activeShiftStartTimes :=
        if !todaySchedules.isEmpty then
          todaySchedules.flatMap (fun s => s.shifts.map (fun sh => timeToMin sh.start))
        else [8 * 60]
      let pastShifts := activeShiftStartTimes.filter (fun start => c.currentMinutes > start + 30)
      if !pastShifts.isEmpty then
        let present := presentEmployeeNames c st
        employees.filterMap (fun emp =>
          if present.contains emp.name then none
          else if isOnLeaveNow c leaves emp.name then none
          else if alreadyNotified c notifications emp.name then none
          else some (mkAbsNote c isExtraWorkDay emp))
      else []

/-- Model of `runAbsenceCheck`, the caller-visible count of newly generated notifications. -/
def absenceAlertCount (c : Clock) (st : Store) : Nat :=
  (checkAndGenerateAbsenceAlerts c st).length

/-! ## Missing-checkout banner (`UserDashboardView.tsx` lines 33-51)

The only missing-checkout detection in the repository: an effect in the
worker's own dashboard that inspects the logged-in worker's records of
yesterday and sets a local alert message.  Nothing is written to the
notification store. -/

/-- The banner text
`` `تنبيه: لم تقم بتسجيل الانصراف ليوم أمس (${yesterday.toLocaleDateString('ar-EG')}). يرجى مراجعة المشرف.` ``. -/
def mkMissingMsg (yesterday : Int) : String :=
  "تنبيه: لم تقم بتسجيل الانصراف ليوم أمس (" ++ dispDate yesterday ++ "). يرجى مراجعة المشرف."

/-- The worker's records in `[yesterdayStart, yesterdayStart + 86400000)`,
sorted ascending by timestamp (`empRecs` of the effect). -/
def yesterdayRecs (records : List AttendanceRecord) (workerName : String)
    (yesterday : Int) : List AttendanceRecord :=
  let yesterdayStart := yesterday * msDay
  let yesterdayEnd := yesterdayStart + 86400000
  sortAsc (records.filter (fun r =>
    r.workerName == workerName &&
    decide (r.timestamp ≥ yesterdayStart) && decide (r.timestamp < yesterdayEnd)))

/-- The missing-checkout effect: filter the worker's records to yesterday,
sort ascending; if the last record is a `CHECK_IN`, set the banner message,
otherwise set nothing. -/
def missingCheckoutAlert (records : List AttendanceRecord) (workerName : String)
    (yesterday : Int) : Option String :=
  let empRecs := yesterdayRecs records workerName yesterday
  match empRecs.getLast? with
  | some lastRecord =>
      if lastRecord.type == AttendanceType.CHECK_IN then some (mkMissingMsg yesterday)
      else none
  | none => none

/-! ## Record creation (`HistoryView.tsx` App `handlePhotoCaptured`, lines 285-308)

The geodesy call feeding `distanceToWork`
(`calculateDistance`, a floating-point haversine) is modelled by the
`distanceToWork` argument itself — exactly the component state variable the
decision reads. -/

/-- Model of the `handlePhotoCaptured` verification decision and record construction:
GPS-method records are verified exactly when
`distanceToWork !== null && distanceToWork <= config.radiusMeters`
(inclusive); QR-method records are always verified. -/
def mkCapturedRecord (freshId workerName : String) (now : Int)
    (pendingType : AttendanceType) (currentLoc : Option Coordinates)
    (imageData : String) (verificationMethod : VMethod)
    (distanceToWork : Option ℚ) (radiusMeters : ℚ) : AttendanceRecord :=
  let isVerified :=
    match verificationMethod with
    | VMethod.GPS => distanceToWork.any (fun d => decide (d ≤ radiusMeters))
    | VMethod.QR => true
  { id := freshId
    workerName := workerName
    timestamp := now
    type := pendingType
    location := currentLoc.getD ⟨0, 0⟩
    photoUrl := imageData
    locationVerified := isVerified
    verificationMethod := verificationMethod }

/-! ## Range aggregation (`DashboardView.tsx` `generateReportData`, lines 253-352)

Only the fields the claims speak about are carried (`daysPresent`,
`totalHours`, `overtimeHours`); display-only fields are omitted. -/

/-- Model of `toFixed(1)` followed by `parseFloat`: round to one decimal place. -/
def toFixed1 (q : ℚ) : ℚ := (round (q * 10) : ℚ) / 10

/-- The overtime formula of `generateReportData`:
`totalHours > standardHours ? totalHours - standardHours : 0` with
`standardHours = daysPresent * 8` (the code renders the value with
`toFixed(1)`/the literal `"0"`; the numeric value is unchanged). -/
def overtimeCalc (totalHours : ℚ) (daysPresent : Nat) : ℚ :=
  if totalHours > (daysPresent : ℚ) * 8 then totalHours - (daysPresent : ℚ) * 8 else 0

/-- The overtime formula of the monthly view (`UserDashboardView.tsx` lines
181-184): `Math.max(0, totalHours - daysPresent * 8)` on the
`Math.round`-ed total hours. -/
def overtimeCalcU (totalHours : Int) (daysPresent : Nat) : Int :=
  max 0 (totalHours - (daysPresent : Int) * 8)

/-- One employee's report row over `[startMs, endMs]`: filter and sort the
employee's records, count distinct calendar days present, sum the per-day
guarded durations over the day groups, convert to hours at one decimal, and
apply the overtime formula. -/
structure ReportRow where
  daysPresent : Nat
  totalHours : ℚ
  overtimeHours : ℚ
deriving Repr

/-- Model of the `generateReportData` per-employee computation (the slice the claims
need).  Day groups are keyed by calendar day in first-occurrence order; each
group keeps the ascending record order, so the per-group duration is
`dayMsOf`.  (`List.dedup` keeps one representative per day; group order is
immaterial to the sum.) -/
def reportRow (records : List AttendanceRecord) (empName : String)
    (startMs endMs : Int) : ReportRow :=
  let empRecords := sortAsc (records.filter (fun r =>
    r.workerName == empName &&
    decide (r.timestamp ≥ startMs) && decide (r.timestamp ≤ endMs)))
  let daysPresent := ((empRecords.map recDay).dedup).length
  let totalMilliseconds :=
    (((empRecords.map recDay).dedup).map
      (fun d => dayMsOf (empRecords.filter (fun r => recDay r == d)))).sum
  let totalHours := toFixed1 ((totalMilliseconds : ℚ) / 3600000)
  { daysPresent := daysPresent
    totalHours := totalHours
    overtimeHours := overtimeCalc totalHours daysPresent }

/-! ## The lateness rule as the claim words it (C4)

Modelled from the claim, for refinement comparison with `lateRefine`: collect
the shift starts of EVERY schedule active on the weekday and compare the
check-in against the closest of all of them. -/

/-- Modelled from the claim: every shift-start time from every schedule whose
`days` include the weekday of `d`. -/
def claimStartTimes (schedules : List WorkSchedule) (d : Int) : List Int :=
  (schedules.filter (fun s => s.days.contains (weekdayName d))).flatMap
    (fun s => s.shifts.map (fun sh => timeToMin sh.start))

/-- Modelled from the claim: LATE exactly when the check-in minutes exceed the
closest of `claimStartTimes` by more than 15. -/
def claimLate (schedules : List WorkSchedule) (d : Int) (checkInMinutes : Int) : Bool :=
  match closestStart checkInMinutes (claimStartTimes schedules d) with
  | some cs => decide (checkInMinutes > cs + 15)
  | none => false

/-! ## Helper lemmas -/

theorem leadsWith_self_append (n s : List Char) : leadsWith n (n ++ s) = true := by
  induction n with
  | nil => rfl
  | cons a t ih => simp [leadsWith, ih]

theorem subOf_of_parts (p n s : List Char) : subOf n (p ++ (n ++ s)) = true := by
  induction p with
  | nil =>
      cases hn : n with
      | nil =>
          cases s with
          | nil => rfl
          | cons c t => simp [subOf, leadsWith]
      | cons a t => simpa [subOf] using Or.inl (leadsWith_self_append (a :: t) s)
  | cons a p' ih => simp [subOf, ih]

theorem strIncludes_of_parts (a n b : String) :
    strIncludes (a ++ (n ++ b)) n = true := by
  unfold strIncludes
  rw [String.data_append, String.data_append]
  exact subOf_of_parts a.data n.data b.data

theorem any_congr_perm {α : Type} {l₁ l₂ : List α} (h : l₁.Perm l₂) (p : α → Bool) :
    l₁.any p = l₂.any p := by
  cases hb : l₂.any p with
  | true =>
      rw [List.any_eq_true] at hb ⊢
      obtain ⟨x, hx, hpx⟩ := hb
      exact ⟨x, h.mem_iff.mpr hx, hpx⟩
  | false =>
      rw [List.any_eq_false] at hb ⊢
      intro x hx
      exact hb x (h.mem_iff.mp hx)

theorem any_sortByIdDesc (l : List Notification) (p : Notification → Bool) :
    (sortByIdDesc l).any p = l.any p :=
  any_congr_perm (List.perm_insertionSort _ l) p

theorem lateRefine_present_or_late (schedules : List WorkSchedule) (d : Int)
    (checkIn : Option AttendanceRecord) (isScheduled holiday : Bool) :
    lateRefine schedules d checkIn isScheduled holiday = DayStatus.PRESENT ∨
    lateRefine schedules d checkIn isScheduled holiday = DayStatus.LATE := by
  cases checkIn with
  | none => exact Or.inl rfl
  | some ci =>
      simp only [lateRefine]
      split
      · split
        · exact Or.inl rfl
        · split
          · exact Or.inl rfl
          · split
            · exact Or.inr rfl
            · exact Or.inl rfl
      · exact Or.inl rfl

/-! ## Claim theorems -/

/-- C1.  For every worker and every calendar day with at least one attendance
record, the classifier's verdict is PRESENT or LATE — never ABSENT, ON_LEAVE,
HOLIDAY, or NON_WORKDAY — even if that day carries a HOLIDAY calendar event or
is covered by an approved leave window. -/
theorem c1_presence_precedence (schedules : List WorkSchedule)
    (events : List CalendarEvent) (leaves : List LeaveRequest)
    (records : List AttendanceRecord) (w : String) (d : Int)
    (h : dayRecordsOf records w d ≠ []) :
    classifyDay schedules events leaves records w d = DayStatus.PRESENT ∨
    classifyDay schedules events leaves records w d = DayStatus.LATE := by
  cases hh : dayRecordsOf records w d with
  | nil => exact absurd hh h
  | cons a t =>
      simp only [classifyDay, hh, List.isEmpty_cons, Bool.not_false, if_true]
      exact lateRefine_present_or_late schedules d (firstCheckIn (a :: t)) _ _

/-- A one-record day (with a HOLIDAY event on that very day and an approved
leave covering it) on which C1's theorem is instantiated. -/
def c1Rec : AttendanceRecord :=
  ⟨"r1", "A", 540 * 60000, AttendanceType.CHECK_IN, ⟨0, 0⟩, "p", true, VMethod.GPS⟩

/-- C1 witness: day 0 of worker `"A"` has a record, a HOLIDAY event and an
approved leave, and the classifier still answers PRESENT or LATE. -/
theorem c1_presence_precedence_witness :
    classifyDay [] [⟨"e1", "عيد", 0, CalEventType.HOLIDAY⟩]
        [⟨"l1", "1", "A", 0, 0, "r", LeaveStatus.Approved⟩] [c1Rec] "A" 0 = DayStatus.PRESENT ∨
    classifyDay [] [⟨"e1", "عيد", 0, CalEventType.HOLIDAY⟩]
        [⟨"l1", "1", "A", 0, 0, "r", LeaveStatus.Approved⟩] [c1Rec] "A" 0 = DayStatus.LATE :=
  c1_presence_precedence _ _ _ _ "A" 0 (by decide)

/-- C6.  A day's worked duration equals `lastCheckOut - firstCheckIn` exactly
when both records exist and the check-out is strictly later; in every other
case it is 0, and it is never negative. -/
theorem c6_duration_guard (dayRecs : List AttendanceRecord) :
    0 ≤ dayMsOf dayRecs ∧
    (∀ ci co, firstCheckIn dayRecs = some ci → lastCheckOut dayRecs = some co →
      ci.timestamp < co.timestamp → dayMsOf dayRecs = co.timestamp - ci.timestamp) ∧
    (firstCheckIn dayRecs = none → dayMsOf dayRecs = 0) ∧
    (lastCheckOut dayRecs = none → dayMsOf dayRecs = 0) ∧
    (∀ ci co, firstCheckIn dayRecs = some ci → lastCheckOut dayRecs = some co →
      co.timestamp ≤ ci.timestamp → dayMsOf dayRecs = 0) := by
  refine ⟨?_, ?_, ?_, ?_, ?_⟩
  · unfold dayMsOf
    split
    · next ci co =>
        split
        · next hlt => omega
        · exact le_refl 0
    · exact le_refl 0
  · intro ci co hci hco hlt
    unfold dayMsOf
    rw [hci, hco]
    simp [hlt]
  · intro hci
    unfold dayMsOf
    rw [hci]
  · intro hco
    unfold dayMsOf
    rw [hco]
    split <;> simp_all
  · intro ci co hci hco hle
    unfold dayMsOf
    rw [hci, hco]
    simp [not_lt.mpr hle]

/-- Sample day records for C6: check-in at minute 540, check-out at minute 960. -/
def c6Recs : List AttendanceRecord :=
  [⟨"r1", "A", 540 * 60000, AttendanceType.CHECK_IN, ⟨0, 0⟩, "p", true, VMethod.GPS⟩,
   ⟨"r2", "A", 960 * 60000, AttendanceType.CHECK_OUT, ⟨0, 0⟩, "p", true, VMethod.GPS⟩]

/-- C6 witness: a concrete day with check-in 09:00 and check-out 16:00 works
`960*60000 - 540*60000` milliseconds. -/
theorem c6_duration_guard_witness :
    dayMsOf c6Recs = 960 * 60000 - 540 * 60000 :=
  (c6_duration_guard c6Recs).2.1
    ⟨"r1", "A", 540 * 60000, AttendanceType.CHECK_IN, ⟨0, 0⟩, "p", true, VMethod.GPS⟩
    ⟨"r2", "A", 960 * 60000, AttendanceType.CHECK_OUT, ⟨0, 0⟩, "p", true, VMethod.GPS⟩
    (by decide) (by decide) (by decide)

/-- C7.  A GPS-method record is created `locationVerified = true` exactly when
the observed distance to the configured center is at most `radiusMeters`
(inclusive boundary); a QR-method record is always created verified.  The
floating-point haversine feeding `distanceToWork` is abstracted as the
distance argument itself, exactly the state variable the decision reads. -/
theorem c7_geofence_verification (freshId workerName : String) (now : Int)
    (pendingType : AttendanceType) (currentLoc : Option Coordinates)
    (imageData : String) (distanceToWork : Option ℚ) (radiusMeters : ℚ) :
    ((mkCapturedRecord freshId workerName now pendingType currentLoc imageData
        VMethod.QR distanceToWork radiusMeters).locationVerified = true) ∧
    ((mkCapturedRecord freshId workerName now pendingType currentLoc imageData
        VMethod.GPS distanceToWork radiusMeters).locationVerified = true ↔
      ∃ dist, distanceToWork = some dist ∧ dist ≤ radiusMeters) := by
  constructor
  · rfl
  · cases distanceToWork with
    | none => simp [mkCapturedRecord, Option.any]
    | some dq => simp [mkCapturedRecord, Option.any]

/-- C8.  Aggregated overtime is `max 0 (totalHours - daysPresent * 8)` at both
aggregation sites (flat 8-hour baseline, never negative), and
`daysPresent = 20, totalHours = 170` gives `overtimeHours = 10`. -/
theorem c8_overtime_formula :
    (∀ (records : List AttendanceRecord) (empName : String) (startMs endMs : Int),
      (reportRow records empName startMs endMs).overtimeHours =
        max 0 ((reportRow records empName startMs endMs).totalHours -
          ((reportRow records empName startMs endMs).daysPresent : ℚ) * 8) ∧
      0 ≤ (reportRow records empName startMs endMs).overtimeHours) ∧
    (∀ (totalHours : ℚ) (daysPresent : Nat),
      overtimeCalc totalHours daysPresent =
        max 0 (totalHours - (daysPresent : ℚ) * 8)) ∧
    (∀ (totalHours : Int) (daysPresent : Nat),
      overtimeCalcU totalHours daysPresent =
        max 0 (totalHours - (daysPresent : Int) * 8) ∧
      0 ≤ overtimeCalcU totalHours daysPresent) ∧
    overtimeCalc 170 20 = 10 ∧ overtimeCalcU 170 20 = 10 := by
  have hcalc : ∀ (th : ℚ) (dp : Nat),
      overtimeCalc th dp = max 0 (th - (dp : ℚ) * 8) := by
    intro th dp
    unfold overtimeCalc
    split
    · next hgt => rw [max_eq_right]; linarith
    · next hle => rw [max_eq_left]; linarith [not_lt.mp hle]
  refine ⟨?_, hcalc, ?_, ?_, ?_⟩
  · intro records empName startMs endMs
    constructor
    · exact hcalc _ _
    · rw [show (reportRow records empName startMs endMs).overtimeHours =
          overtimeCalc (reportRow records empName startMs endMs).totalHours
            (reportRow records empName startMs endMs).daysPresent from rfl,
        hcalc]
      exact le_max_left 0 _
  · intro th dp
    exact ⟨rfl, le_max_left 0 _⟩
  · norm_num [overtimeCalc]
  · norm_num [overtimeCalcU]

/-- Two schedules both active on Sunday: the first starts at 08:00 only, the
second at 09:00 only. -/
def c4Schedules : List WorkSchedule :=
  [⟨"1", "أولى", [⟨"08:00", "12:00", "صباحي"⟩], ["الأحد"]⟩,
   ⟨"2", "ثانية", [⟨"09:00", "13:00", "صباحي"⟩], ["الأحد"]⟩]

/-- A check-in on Sunday (day 0) at 09:05. -/
def c4Rec : AttendanceRecord :=
  ⟨"r1", "A", 545 * 60000, AttendanceType.CHECK_IN, ⟨0, 0⟩, "p", true, VMethod.GPS⟩

/-- C4 counterexample: with both Sunday schedules active, a 09:05 check-in is
within 15 minutes of the global closest start 09:00, so the claim says
on-time — but the code consults only the FIRST matching schedule (start
08:00) and marks the day LATE. -/
theorem c4_counterexample :
    classifyDay c4Schedules [] [] [c4Rec] "A" 0 = DayStatus.LATE ∧
    claimLate c4Schedules 0 (minutesOfDay c4Rec.timestamp) = false := by
  constructor
  · rfl
  · rfl

/-- C4 (amended).  On a present day with a check-in, schedule-resolved workday
and no holiday, lateness is decided against the closest shift start (minimum
absolute difference, first-encountered winning ties) of the FIRST schedule in
iteration order whose days include the weekday — not of every active
schedule: the day is LATE exactly when the check-in minutes exceed that
closest start by more than 15 (exactly 15 minutes after is on-time). -/
theorem c4_lateness_amended (schedules : List WorkSchedule)
    (events : List CalendarEvent) (leaves : List LeaveRequest)
    (records : List AttendanceRecord) (w : String) (d : Int)
    (ci : AttendanceRecord) (sch : WorkSchedule) (cs : Int)
    (hne : dayRecordsOf records w d ≠ [])
    (hci : firstCheckIn (dayRecordsOf records w d) = some ci)
    (hsch : isScheduledDay schedules d = true)
    (hhol : holidayOn events d = false)
    (hfind : schedules.find? (fun s => s.days.contains (weekdayName d)) = some sch)
    (hcs : closestStart (minutesOfDay ci.timestamp)
        (sch.shifts.map (fun sh => timeToMin sh.start)) = some cs) :
    (classifyDay schedules events leaves records w d = DayStatus.LATE ↔
      minutesOfDay ci.timestamp > cs + 15) := by
  cases hh : dayRecordsOf records w d with
  | nil => exact absurd hh hne
  | cons a t =>
      rw [hh] at hci
      simp only [classifyDay, hh, List.isEmpty_cons, Bool.not_false, if_true]
      simp only [lateRefine, hci, hsch, hhol, Bool.not_false, Bool.and_true, if_true,
        hfind, hcs]
      split
      · next hgt => simpa using hgt
      · next hngt => simp_all

/-- A check-in on Sunday (day 0) at 09:25 for the C4 witness. -/
def c4wRec : AttendanceRecord :=
  ⟨"r2", "A", 565 * 60000, AttendanceType.CHECK_IN, ⟨0, 0⟩, "p", true, VMethod.GPS⟩

/-- C4 witness: under the first Sunday schedule (start 08:00) a 09:25 check-in
is LATE exactly because 565 > 480 + 15. -/
theorem c4_lateness_amended_witness :
    classifyDay c4Schedules [] [] [c4wRec] "A" 0 = DayStatus.LATE ↔
      minutesOfDay c4wRec.timestamp > 480 + 15 :=
  c4_lateness_amended c4Schedules [] [] [c4wRec] "A" 0 c4wRec
    ⟨"1", "أولى", [⟨"08:00", "12:00", "صباحي"⟩], ["الأحد"]⟩ 480
    (by decide) (by decide) (by decide) (by decide) (by decide) (by decide)

/-- C5 (amended).  With no records that day, an Approved leave window with
`startDate ≤ date ≤ endDate` (inclusive, compared at midnight) yields
ON_LEAVE in the classifier, and Pending/Rejected requests never suppress
anything; but the absence-alert pass compares the window against the CURRENT
INSTANT (`new Date()`), so it suppresses the alert exactly when
`startDate-midnight ≤ now ≤ endDate-midnight` — a leave whose `endDate` is
today no longer suppresses once the day has begun. -/
theorem c5_leave_amended :
    (∀ (leaves : List LeaveRequest) (w : String) (d : Int),
      leaveCovers leaves w d = true ↔
        ∃ l ∈ leaves, l.employeeName = w ∧ l.status = LeaveStatus.Approved ∧
          l.startDate ≤ d ∧ d ≤ l.endDate) ∧
    (∀ (schedules : List WorkSchedule) (events : List CalendarEvent)
        (leaves : List LeaveRequest) (records : List AttendanceRecord)
        (w : String) (d : Int),
      dayRecordsOf records w d = [] → leaveCovers leaves w d = true →
      classifyDay schedules events leaves records w d = DayStatus.ON_LEAVE) ∧
    (∀ (c : Clock) (leaves : List LeaveRequest) (name : String),
      isOnLeaveNow c leaves name = true ↔
        ∃ l ∈ leaves, l.employeeName = name ∧ l.status = LeaveStatus.Approved ∧
          l.startDate * msDay ≤ c.now ∧ c.now ≤ l.endDate * msDay) ∧
    (∀ (leaves : List LeaveRequest),
      (∀ l ∈ leaves, l.status ≠ LeaveStatus.Approved) →
      ∀ (w : String) (d : Int) (c : Clock) (name : String),
        leaveCovers leaves w d = false ∧ isOnLeaveNow c leaves name = false) := by
  have hmsDay : (0 : Int) < msDay := by decide
  have hcov : ∀ (leaves : List LeaveRequest) (w : String) (d : Int),
      leaveCovers leaves w d = true ↔
        ∃ l ∈ leaves, l.employeeName = w ∧ l.status = LeaveStatus.Approved ∧
          l.startDate ≤ d ∧ d ≤ l.endDate := by
    intro leaves w d
    unfold leaveCovers
    rw [List.any_eq_true]
    constructor
    · rintro ⟨l, hl, hp⟩
      simp only [Bool.and_eq_true, beq_iff_eq, decide_eq_true_eq] at hp
      obtain ⟨⟨⟨h1, h2⟩, h3⟩, h4⟩ := hp
      exact ⟨l, hl, h1, h2, le_of_mul_le_mul_right h3 hmsDay,
        le_of_mul_le_mul_right h4 hmsDay⟩
    · rintro ⟨l, hl, h1, h2, h3, h4⟩
      refine ⟨l, hl, ?_⟩
      simp only [Bool.and_eq_true, beq_iff_eq, decide_eq_true_eq]
      exact ⟨⟨⟨h1, h2⟩, by exact mul_le_mul_of_nonneg_right h3 (le_of_lt hmsDay)⟩,
        by exact mul_le_mul_of_nonneg_right h4 (le_of_lt hmsDay)⟩
  have hnow : ∀ (c : Clock) (leaves : List LeaveRequest) (name : String),
      isOnLeaveNow c leaves name = true ↔
        ∃ l ∈ leaves, l.employeeName = name ∧ l.status = LeaveStatus.Approved ∧
          l.startDate * msDay ≤ c.now ∧ c.now ≤ l.endDate * msDay := by
    intro c leaves name
    unfold isOnLeaveNow
    rw [List.any_eq_true]
    constructor
    · rintro ⟨l, hl, hp⟩
      simp only [Bool.and_eq_true, beq_iff_eq, decide_eq_true_eq] at hp
      exact ⟨l, hl, hp.1.1.1, hp.1.1.2, hp.1.2, hp.2⟩
    · rintro ⟨l, hl, h1, h2, h3, h4⟩
      refine ⟨l, hl, ?_⟩
      simp only [Bool.and_eq_true, beq_iff_eq, decide_eq_true_eq]
      exact ⟨⟨⟨h1, h2⟩, h3⟩, h4⟩
  refine ⟨hcov, ?_, hnow, ?_⟩
  · intro schedules events leaves records w d hrec hleave
    simp only [classifyDay, hrec, hleave, List.isEmpty_nil, Bool.not_true,
      Bool.false_eq_true, if_false, if_true]
  · intro leaves hna w d c name
    constructor
    · cases hb : leaveCovers leaves w d with
      | false => rfl
      | true =>
          obtain ⟨l, hl, _, h2, _, _⟩ := (hcov leaves w d).mp hb
          exact absurd h2 (hna l hl)
    · cases hb : isOnLeaveNow c leaves name with
      | false => rfl
      | true =>
          obtain ⟨l, hl, _, h2, _, _⟩ := (hnow c leaves name).mp hb
          exact absurd h2 (hna l hl)

/-- C5 counterexample data: one Active employee `"A"` with an Approved leave
covering exactly day 0 (`startDate = endDate = 0`), no records, a Sunday
schedule starting 08:00. -/
def c5Store : Store :=
  ⟨[], [⟨"1", "A", "USER", "p", EmpStatus.Active⟩],
   [⟨"1", "قياسية", [⟨"08:00", "12:00", "صباحي"⟩], ["الأحد"]⟩],
   [], [⟨"L1", "1", "A", 0, 0, "سبب", LeaveStatus.Approved⟩], []⟩

/-- The alert pass runs on day 0 at 10:00. -/
def c5Clock : Clock := ⟨0, 600, "71"⟩

/-- C5 counterexample: the Approved leave covers day 0 inclusively (the
classifier says ON_LEAVE), yet the 10:00 absence pass still emits one alert
for `"A"`: `new Date(l.endDate)` is midnight of day 0, which is already
before `new Date()`. -/
theorem c5_counterexample :
    leaveCovers c5Store.leaves "A" 0 = true ∧
    classifyDay c5Store.schedules c5Store.calendarEvents c5Store.leaves
      c5Store.records "A" 0 = DayStatus.ON_LEAVE ∧
    isOnLeaveNow c5Clock c5Store.leaves "A" = false ∧
    absenceAlertCount c5Clock c5Store = 1 := by
  refine ⟨by decide, by decide, by decide, by decide⟩

/-- C5 witness: instantiating the amended theorem's classifier clause on the
concrete store gives ON_LEAVE for worker `"A"` on day 0. -/
theorem c5_leave_amended_witness :
    classifyDay c5Store.schedules c5Store.calendarEvents c5Store.leaves
      [] "A" 0 = DayStatus.ON_LEAVE :=
  c5_leave_amended.2.1 c5Store.schedules c5Store.calendarEvents c5Store.leaves
    [] "A" 0 (by decide) (by decide)

/-- C2 counterexample data: Active employee `"A"` whose yesterday (day 0)
ends with an unanswered CHECK_IN at 09:00, and who checked in today (day 1)
at 08:00; a Monday schedule makes today a workday; no stored notifications. -/
def c2Store : Store :=
  ⟨[⟨"r1", "A", 540 * 60000, AttendanceType.CHECK_IN, ⟨0, 0⟩, "p", true, VMethod.GPS⟩,
    ⟨"r2", "A", 86400000 + 480 * 60000, AttendanceType.CHECK_IN, ⟨0, 0⟩, "p", true, VMethod.GPS⟩],
   [⟨"1", "A", "USER", "p", EmpStatus.Active⟩],
   [⟨"1", "قياسية", [⟨"08:00", "12:00", "صباحي"⟩], ["الاثنين"]⟩],
   [], [], []⟩

/-- The check runs on day 1 (a Monday) at 10:00. -/
def c2Clock : Clock := ⟨1, 600, "21"⟩

/-- C2 counterexample: yesterday's records of the Active employee end with a
CHECK_IN, no notification for (employee, yesterday) exists, and running the
absence/missing-checkout check emits NOTHING — the repository has no
notification-emitting missing-checkout pass (the condition only drives the
worker's own dashboard banner). -/
theorem c2_counterexample :
    (yesterdayRecs c2Store.records "A" 0).getLast? =
      some ⟨"r1", "A", 540 * 60000, AttendanceType.CHECK_IN, ⟨0, 0⟩, "p", true, VMethod.GPS⟩ ∧
    missingCheckoutAlert c2Store.records "A" 0 = some (mkMissingMsg 0) ∧
    c2Store.notifications = [] ∧
    checkAndGenerateAbsenceAlerts c2Clock c2Store = [] := by
  refine ⟨by decide, by decide, rfl, by decide⟩

/-- C2 (amended).  `checkAndGenerateAbsenceAlerts` emits only
absence-titled notifications — never a "missing checkout" one; the
missing-checkout condition (yesterday's records sorted by time ending with a
CHECK_IN) is surfaced solely as the logged-in worker's dashboard banner,
which references yesterday's date string and writes nothing to the
notification store. -/
theorem c2_missing_checkout_amended :
    (∀ (c : Clock) (st : Store) (n : Notification),
      n ∈ checkAndGenerateAbsenceAlerts c st → n.title = absenceTitle) ∧
    (∀ (records : List AttendanceRecord) (w : String) (y : Int),
      missingCheckoutAlert records w y = some (mkMissingMsg y) ↔
        ∃ r, (yesterdayRecs records w y).getLast? = some r ∧
          r.type = AttendanceType.CHECK_IN) := by
  have hFM : ∀ (c : Clock) (flag : Bool) (present : List String)
      (leaves : List LeaveRequest) (notes : List Notification)
      (emps : List Employee) (n : Notification),
      n ∈ emps.filterMap (fun emp =>
        if present.contains emp.name then none
        else if isOnLeaveNow c leaves emp.name then none
        else if alreadyNotified c notes emp.name then none
        else some (mkAbsNote c flag emp)) →
      n.title = absenceTitle := by
    intro c flag present leaves notes emps n hn
    rw [List.mem_filterMap] at hn
    obtain ⟨e, _, hfe⟩ := hn
    split at hfe
    · simp at hfe
    · split at hfe
      · simp at hfe
      · split at hfe
        · simp at hfe
        · rw [Option.some_inj] at hfe
          rw [← hfe]
          rfl
  constructor
  · intro c st n hn
    unfold checkAndGenerateAbsenceAlerts at hn
    dsimp only at hn
    split at hn
    · simp at hn
    · split at hn
      · simp at hn
      · split at hn
        · split at hn
          · exact hFM _ _ _ _ _ _ _ hn
          · simp at hn
        · split at hn
          · exact hFM _ _ _ _ _ _ _ hn
          · simp at hn
  · intro records w y
    unfold missingCheckoutAlert
    dsimp only
    cases hl : (yesterdayRecs records w y).getLast? with
    | none => simp [hl]
    | some r =>
        cases hr : r.type with
        | CHECK_IN => simp [hl, hr]
        | CHECK_OUT => simp [hl, hr]

/-- C2 amended witness: in a store where the engine does emit (an absence
alert for `"A"` on a workday), the emitted notification's title is the
absence title. -/
theorem c2_missing_checkout_amended_witness :
    (mkAbsNote c5Clock false ⟨"1", "A", "USER", "p", EmpStatus.Active⟩).title = absenceTitle :=
  c2_missing_checkout_amended.1 c5Clock c5Store _ (by decide)

/-- Filler records (500 of them) of worker `"B"`, all newer than `"A"`'s check-in
(timestamps 1500 down to 1001, listed newest first). -/
def c9Filler (i : Nat) : AttendanceRecord :=
  ⟨"b" ++ toString i, "B", 1500 - (i : Int), AttendanceType.CHECK_IN, ⟨0, 0⟩, "p",
    true, VMethod.GPS⟩

/-- Worker `"A"` has this CHECK_IN for today (day 0), older than all 500 fillers. -/
def c9ARec : AttendanceRecord :=
  ⟨"a", "A", 100, AttendanceType.CHECK_IN, ⟨0, 0⟩, "p", true, VMethod.GPS⟩

/-- C9 store: Active employee `"A"` with a CHECK_IN today, buried under 500
newer records; a Sunday schedule makes day 0 a workday. -/
def c9Store : Store :=
  ⟨(List.range 500).map c9Filler ++ [c9ARec],
   [⟨"1", "A", "USER", "p", EmpStatus.Active⟩],
   [⟨"1", "قياسية", [⟨"08:00", "12:00", "صباحي"⟩], ["الأحد"]⟩],
   [], [], []⟩

/-- The absence pass runs on day 0 at 10:00. -/
def c9Clock : Clock := ⟨0, 600, "91"⟩

set_option maxRecDepth 20000 in
/-- C9.  The absence pass reads only the 500 most recent records: here `"A"`
has a CHECK_IN today in the full store, but 500 newer records push it out of
`getRecords(500)`, so the pass still emits one absence alert for `"A"`. -/
theorem c9_record_limit_truncates_presence :
    c9Store.records.any (fun r =>
      r.workerName == "A" && r.type == AttendanceType.CHECK_IN &&
      decide (r.timestamp ≥ c9Clock.startOfDay)) = true ∧
    (getRecords c9Store 500).any (fun r => r.workerName == "A") = false ∧
    checkAndGenerateAbsenceAlerts c9Clock c9Store = [mkAbsNote c9Clock false
      ⟨"1", "A", "USER", "p", EmpStatus.Active⟩] := by
  refine ⟨by decide, by decide, by decide⟩

/-- C10 store: two Active absent employees `"A"` and `"AB"`; the only stored
notification is today's absence alert previously emitted for `"AB"`, whose
message contains `"A"` as a substring; a Sunday schedule makes day 0 a
workday. -/
def c10Store : Store :=
  ⟨[],
   [⟨"1", "A", "USER", "p", EmpStatus.Active⟩,
    ⟨"2", "AB", "USER", "p", EmpStatus.Active⟩],
   [⟨"1", "قياسية", [⟨"08:00", "12:00", "صباحي"⟩], ["الأحد"]⟩],
   [], [],
   [⟨"100", absenceTitle, absenceMessage false (weekdayName 0) "AB", dispDate 0, false⟩]⟩

/-- The absence pass runs on day 0 at 10:00. -/
def c10Clock : Clock := ⟨0, 600, "101"⟩

/-- C10.  The idempotency guard matches by substring containment: `"A"` has no
records, no leave and no absence notification of its own, yet because `"A"`
is a substring of the stored alert message for `"AB"`, the pass emits no
alert at all for `"A"` (nor, correctly, for `"AB"`). -/
theorem c10_substring_guard_collision :
    c10Store.records = [] ∧ c10Store.leaves = [] ∧
    (c10Store.notifications.any
      (fun n => n.message == absenceMessage false (weekdayName c10Clock.today) "A")) = false ∧
    alreadyNotified c10Clock (getNotifications c10Store) "A" = true ∧
    checkAndGenerateAbsenceAlerts c10Clock c10Store = [] := by
  refine ⟨rfl, rfl, by decide, by decide, by decide⟩

/-- The notification the engine saves for an employee matches the engine's own
idempotency guard for that employee: same title, name contained in the
message, same date string. -/
theorem absNoteMatch_mkAbsNote (c : Clock) (flag : Bool) (e : Employee) :
    absNoteMatch c e.name (mkAbsNote c flag e) = true := by
  show (absenceTitle == absenceTitle &&
    strIncludes (absenceMessage flag (weekdayName c.today) e.name) e.name &&
    (dispDate c.today == dispDate c.today)) = true
  rw [show absenceMessage flag (weekdayName c.today) e.name =
      "الموظف " ++ (e.name ++ (" لم يسجل الحضور اليوم (" ++
        ((if flag then "دوام إضافي" else weekdayName c.today) ++ ") حتى الآن."))) from rfl,
    strIncludes_of_parts]
  simp

/-- Every notification the capped read returns is a stored notification. -/
theorem mem_of_mem_getNotifications {st : Store} {n : Notification}
    (h : n ∈ getNotifications st) : n ∈ st.notifications := by
  unfold getNotifications sortByIdDesc at h
  have h2 := (List.perm_insertionSort
    (fun a b : Notification => idNum b.id ≤ idNum a.id) _).mem_iff.mp h
  have h3 := List.mem_of_mem_take h2
  exact (List.perm_insertionSort
    (fun a b : Notification => lexLe a.id.data b.id.data = true) _).mem_iff.mp h3

/-- While at most 50 notifications are stored, the capped read covers the
whole collection, so an existence check over it agrees with one over the
stored list. -/
theorem getNotifications_any_of_le (st : Store) (p : Notification → Bool)
    (h : st.notifications.length ≤ 50) :
    (getNotifications st).any p = st.notifications.any p := by
  have hlen : (List.insertionSort
      (fun a b : Notification => lexLe a.id.data b.id.data = true)
      st.notifications).length ≤ 50 := by
    rw [List.length_insertionSort]
    exact h
  unfold getNotifications
  rw [List.take_of_length_le hlen, any_sortByIdDesc]
  exact any_congr_perm (List.perm_insertionSort _ _) p

/-- Fifty pre-existing notifications (ids `"10"` to `"59"`, none of them
absence alerts) that all order before the fresh alert id `"9A"` in document
name order. -/
def c3xOld (i : Nat) : Notification :=
  ⟨toString (10 + i), "إشعار قديم", "نص قديم", "قديم", false⟩

/-- C3 counterexample store: one Active absent employee `"A"`, a Sunday
schedule starting 08:00, and 50 stored non-absence notifications. -/
def c3xStore : Store :=
  ⟨[], [⟨"1", "A", "USER", "p", EmpStatus.Active⟩],
   [⟨"1", "قياسية", [⟨"08:00", "12:00", "صباحي"⟩], ["الأحد"]⟩],
   [], [], (List.range 50).map c3xOld⟩

/-- Both runs happen on day 0 at 10:00; the fresh alert id is `"9" ++ "A"`. -/
def c3xClock : Clock := ⟨0, 600, "9"⟩

set_option maxRecDepth 20000 in
/-- C3 counterexample: with 50 stored notifications whose ids order before
the fresh alert's id, the first run emits one absence alert for `"A"`, the
alert lands beyond the 50-document read window, and the second immediate
invocation — same clock, first run's alert now stored — emits it AGAIN
(count 1, not 0). -/
theorem c3_counterexample :
    c3xStore.notifications.length = 50 ∧
    checkAndGenerateAbsenceAlerts c3xClock c3xStore =
      [mkAbsNote c3xClock false ⟨"1", "A", "USER", "p", EmpStatus.Active⟩] ∧
    checkAndGenerateAbsenceAlerts c3xClock
      { c3xStore with notifications :=
          c3xStore.notifications ++ checkAndGenerateAbsenceAlerts c3xClock c3xStore } =
      [mkAbsNote c3xClock false ⟨"1", "A", "USER", "p", EmpStatus.Active⟩] := by
  refine ⟨by decide, by decide, by decide⟩

/-- C3 (amended).  Running the absence check twice in immediate succession
(same clock, the first run's saved notifications now in the store) generates
nothing on the second run, PROVIDED the capped 50-document notification read
still covers the whole store after the first run — i.e. at most 50
notifications are stored once the first run's alerts are saved.  Then every
employee the loop would flag is guarded, either by a pre-existing
notification or by the one the first run just saved; without that bound the
second run can miss the fresh alert and re-emit (see the counterexample). -/
theorem c3_idempotent_within_read_window (c : Clock) (st : Store)
    (h50 : (st.notifications ++ checkAndGenerateAbsenceAlerts c st).length ≤ 50) :
    checkAndGenerateAbsenceAlerts c
      { st with notifications :=
          st.notifications ++ checkAndGenerateAbsenceAlerts c st } = [] := by
  set E := checkAndGenerateAbsenceAlerts c st with hE
  have h50x : ({ st with notifications := st.notifications ++ E } : Store).notifications.length ≤ 50 := h50
  have hpres : presentEmployeeNames c
      { st with notifications := st.notifications ++ E } =
      presentEmployeeNames c st := rfl
  unfold checkAndGenerateAbsenceAlerts
  dsimp only
  rw [hpres]
  split
  · rfl
  · next h1 =>
    split
    · rfl
    · next h2 =>
      split
      · next h3 =>
        split
        · next h4 =>
          rw [List.filterMap_eq_nil_iff]
          intro emp hemp
          split
          · rfl
          · next hp =>
            split
            · rfl
            · next hl =>
              split
              · rfl
              · next hfalse =>
                exfalso
                rw [alreadyNotified,
                  getNotifications_any_of_le _ (absNoteMatch c emp.name) h50x] at hfalse
                dsimp only at hfalse
                rw [List.any_append] at hfalse
                simp only [Bool.or_eq_true, not_or] at hfalse
                obtain ⟨hnot1, hnot2⟩ := hfalse
                apply hnot2
                rw [List.any_eq_true]
                refine ⟨mkAbsNote c
                  (Option.any (fun e => e.type == CalEventType.EXTRA_WORKDAY)
                    (List.find? (fun e => e.date == c.today) st.calendarEvents)) emp,
                  ?_, absNoteMatch_mkAbsNote c _ emp⟩
                rw [hE]
                unfold checkAndGenerateAbsenceAlerts
                dsimp only
                rw [if_neg h1, if_neg h2, if_pos h3, if_pos h4]
                rw [List.mem_filterMap]
                refine ⟨emp, hemp, ?_⟩
                rw [if_neg hp, if_neg hl, if_neg ?_]
                rw [alreadyNotified]
                intro hc
                rw [List.any_eq_true] at hc
                obtain ⟨n, hn, hpn⟩ := hc
                exact hnot1 (List.any_eq_true.mpr
                  ⟨n, mem_of_mem_getNotifications hn, hpn⟩)
        · next h4 => rfl
      · next h3 =>
        split
        · next h4 =>
          rw [List.filterMap_eq_nil_iff]
          intro emp hemp
          split
          · rfl
          · next hp =>
            split
            · rfl
            · next hl =>
              split
              · rfl
              · next hfalse =>
                exfalso
                rw [alreadyNotified,
                  getNotifications_any_of_le _ (absNoteMatch c emp.name) h50x] at hfalse
                dsimp only at hfalse
                rw [List.any_append] at hfalse
                simp only [Bool.or_eq_true, not_or] at hfalse
                obtain ⟨hnot1, hnot2⟩ := hfalse
                apply hnot2
                rw [List.any_eq_true]
                refine ⟨mkAbsNote c
                  (Option.any (fun e => e.type == CalEventType.EXTRA_WORKDAY)
                    (List.find? (fun e => e.date == c.today) st.calendarEvents)) emp,
                  ?_, absNoteMatch_mkAbsNote c _ emp⟩
                rw [hE]
                unfold checkAndGenerateAbsenceAlerts
                dsimp only
                rw [if_neg h1, if_neg h2, if_neg h3, if_pos h4]
                rw [List.mem_filterMap]
                refine ⟨emp, hemp, ?_⟩
                rw [if_neg hp, if_neg hl, if_neg ?_]
                rw [alreadyNotified]
                intro hc
                rw [List.any_eq_true] at hc
                obtain ⟨n, hn, hpn⟩ := hc
                exact hnot1 (List.any_eq_true.mpr
                  ⟨n, mem_of_mem_getNotifications hn, hpn⟩)
        · next h4 => rfl

/-- C3 amended witness store: one Active absent employee, a Sunday workday
schedule, and an empty notification store, so the read window covers
everything after the first run. -/
def c3wStore : Store :=
  ⟨[], [⟨"1", "A", "USER", "p", EmpStatus.Active⟩],
   [⟨"1", "قياسية", [⟨"08:00", "12:00", "صباحي"⟩], ["الأحد"]⟩],
   [], [], []⟩

/-- Both runs happen on day 0 at 10:00. -/
def c3wClock : Clock := ⟨0, 600, "31"⟩

/-- C3 amended witness: on the one-employee store the first run saves one
alert (1 ≤ 50) and the second immediate run emits nothing. -/
theorem c3_idempotent_within_read_window_witness :
    checkAndGenerateAbsenceAlerts c3wClock
      { c3wStore with notifications :=
          c3wStore.notifications ++ checkAndGenerateAbsenceAlerts c3wClock c3wStore } = [] :=
  c3_idempotent_within_read_window c3wClock c3wStore (by decide)
